import Mathlib

/-!
Verification of `src/scripts/run_colabfold.py`.

The Python script builds two SLURM submission scripts (one for
`colabfold_search`, one for `colabfold_batch`) wrapping apptainer
invocations.  This file is a shallow embedding of the script:

* `shlexQuote` / `shlexJoin` model Python's `shlex.quote` / `shlex.join`;
* `shellSplit` models POSIX shell word splitting (quote removal, single and
  double quotes, backslash escapes, backslash-newline line continuation),
  used to state the quoting round-trip property;
* `pyRound2` models Python's `round(x, 2)` (round half to even), and
  `formatDotTwoG` models `format(x, ".2g")`, over exact rationals;
* `generateColabfoldSearchArgs` / `generateColabfoldBatchArgs` embed
  `_generate_colabfold_search_args` / `_generate_colabfold_batch_args`
  (with `pathlib.Path.resolve()` modelled for clean, symlink-free paths
  via an explicit working directory);
* `generateSbatchScript` embeds `_generate_sbatch_script`, with the
  `SLURM_PROJECT_ID` environment variable passed explicitly as an
  `Option String` (`_get_account_code`);
* `runMain` embeds `main`, with the filesystem effects on the output
  folder made explicit as a small state (`FS`): `pathlib.Path.open("w")`
  creates/truncates the file before the content expression is evaluated,
  `f.write` stores the content, `unlink(missing_ok=True)` removes a file
  and never fails.
-/

namespace RunColabfold

/-! ### Model of `shlex.quote` (Python stdlib)

`shlex.quote(s)` returns `''` for the empty string, returns `s` unchanged
when every character matches `[-A-Za-z0-9_@%+=:,./]` (the complement of
`_find_unsafe`, with `re.ASCII`), and otherwise wraps `s` in single quotes
after replacing every single quote by the five characters
single-quote, double-quote, single-quote, double-quote, single-quote. -/

def isSafeChar (c : Char) : Bool :=
  (c.isAlpha || c.isDigit) || c ∈ ['_', '@', '%', '+', '=', ':', ',', '.', '/', '-']

/-- The body transformation of `shlex.quote`: replace each single quote
with the 5-character escape sequence. -/
def sqEscChars : List Char → List Char
  | [] => []
  | c :: cs =>
    if c = '\'' then '\'' :: '"' :: '\'' :: '"' :: '\'' :: sqEscChars cs
    else c :: sqEscChars cs

/-- Model of Python `shlex.quote`. -/
def shlexQuote (s : String) : String :=
  if s = "" then String.mk ['\'', '\'']
  else if s.data.all isSafeChar then s
  else String.mk ('\'' :: (sqEscChars s.data ++ ['\'']))

/-- Model of Python `shlex.join`: space-separated quoted tokens. -/
def shlexJoin (l : List String) : String :=
  String.intercalate " " (l.map shlexQuote)

/-! ### POSIX shell word splitting

A word splitter implementing POSIX shell tokenization as far as quoting is
concerned: whitespace separates words; single quotes protect everything up
to the next single quote; double quotes protect everything except `\"`,
`\\`, `\$` and backslash-backquote escapes; outside quotes a backslash
escapes the next character, and backslash-newline is removed entirely
(line continuation).  Command substitution and expansion are not modelled;
none of the generated scripts' command lines rely on them.  The splitter
returns `none` on unterminated quotes or a trailing backslash. -/

inductive SMode where
  | norm
  | squote
  | dquote
deriving DecidableEq

/-- Close the current word (if one has been started) and append it to the
accumulated word list. -/
def flushTok : Option (List Char) → List (List Char) → List (List Char)
  | none, toks => toks
  | some t, toks => toks ++ [t]

def shellSplitAux : SMode → Option (List Char) → List (List Char) → List Char →
    Option (List (List Char))
  | .norm, cur, toks, [] => some (flushTok cur toks)
  | .norm, cur, toks, c :: cs =>
    if c = ' ' ∨ c = '\t' ∨ c = '\n' then shellSplitAux .norm none (flushTok cur toks) cs
    else if c = '\'' then shellSplitAux .squote (some (cur.getD [])) toks cs
    else if c = '"' then shellSplitAux .dquote (some (cur.getD [])) toks cs
    else if c = '\\' then
      match cs with
      | [] => none
      | d :: ds =>
        if d = '\n' then shellSplitAux .norm cur toks ds
        else shellSplitAux .norm (some (cur.getD [] ++ [d])) toks ds
    else shellSplitAux .norm (some (cur.getD [] ++ [c])) toks cs
  | .squote, _, _, [] => none
  | .squote, cur, toks, c :: cs =>
    if c = '\'' then shellSplitAux .norm cur toks cs
    else shellSplitAux .squote (some (cur.getD [] ++ [c])) toks cs
  | .dquote, _, _, [] => none
  | .dquote, cur, toks, c :: cs =>
    if c = '"' then shellSplitAux .norm cur toks cs
    else if c = '\\' then
      match cs with
      | [] => none
      | d :: ds =>
        if d = '\n' then shellSplitAux .dquote cur toks ds
        else if d = '"' ∨ d = '\\' ∨ d = '$' ∨ d = Char.ofNat 96 then
          shellSplitAux .dquote (some (cur.getD [] ++ [d])) toks ds
        else shellSplitAux .dquote (some (cur.getD [] ++ ['\\', d])) toks ds
    else shellSplitAux .dquote (some (cur.getD [] ++ [c])) toks cs
termination_by _ _ _ l => l.length
decreasing_by all_goals simp <;> omega

/-- POSIX shell word splitting of a whole command line. -/
def shellSplit (s : String) : Option (List String) :=
  (shellSplitAux .norm none [] s.data).map (fun ts => ts.map String.mk)

/-! ### Python numeric helpers, over exact rationals

The arithmetic on `ℚ` is spelled with explicit executable wrappers
(`qMul`, `qDiv`, `qSub`) built on `Rat.divInt`, provably equal to `*`,
`/` and `-` (see `qMul_eq` etc. below); the library's own `Rat.mul` and
friends are irreducible, which would make the model impossible to
evaluate inside proofs. -/

def qMul (a b : ℚ) : ℚ := Rat.divInt (a.num * b.num) (a.den * b.den)

def qDiv (a b : ℚ) : ℚ := Rat.divInt (a.num * b.den) (a.den * b.num)

def qSub (a b : ℚ) : ℚ := Rat.divInt (a.num * b.den - b.num * a.den) (a.den * b.den)

/-- The constant `1/2`. -/
def qHalf : ℚ := Rat.divInt 1 2

/-- `⌊q⌋` for rationals, computably (floor division of numerator by
denominator). -/
def ratFloor (q : ℚ) : ℤ := Int.fdiv q.num q.den

/-- Python's `round` to the nearest integer: round half to even
(banker's rounding). -/
def pyRoundHalfEven (q : ℚ) : ℤ :=
  let f := ratFloor q
  let r := qSub q (f : ℚ)
  if r < qHalf then f
  else if qHalf < r then f + 1
  else if f % 2 = 0 then f else f + 1

/-- Python's `round(x, 2)`: round half to even at two decimal places. -/
def pyRound2 (q : ℚ) : ℚ := qDiv ((pyRoundHalfEven (qMul q 100) : ℤ) : ℚ) 100

/-- The per-CPU memory computed by `_generate_sbatch_script`:
`max(1.0, round(memory_gbs / num_cpus, 2))` (Python's binary `max`
returns its second argument exactly when that is strictly larger). -/
def memPerCpuRat (memoryGbs : ℚ) (numCpus : ℕ) : ℚ :=
  let r := pyRound2 (qDiv memoryGbs (numCpus : ℚ))
  if 1 < r then r else 1

/-- Number of decimal digits of `n` (with the given amount of fuel). -/
def digitCountAux : ℕ → ℕ → ℕ
  | 0, _ => 0
  | fuel + 1, n => if n = 0 then 0 else digitCountAux fuel (n / 10) + 1

/-- Number of decimal digits of `n`; `digitCount 0 = 1`. -/
def digitCount (n : ℕ) : ℕ :=
  if n = 0 then 1 else digitCountAux (n + 1) n

/-- `10 ^ e` as a rational, for an integer exponent. -/
def qPow10 (e : ℤ) : ℚ :=
  if 0 ≤ e then Rat.divInt ((10 : ℤ) ^ e.toNat) 1
  else Rat.divInt 1 ((10 : ℤ) ^ (-e).toNat)

/-- Whether `q ≥ 10 ^ e`, for `q > 0`, by integer cross-multiplication. -/
def qGePow10 (q : ℚ) (e : ℤ) : Bool :=
  if 0 ≤ e then (10 : ℤ) ^ e.toNat * q.den ≤ q.num
  else (q.den : ℤ) ≤ q.num * (10 : ℤ) ^ (-e).toNat

/-- `⌊log₁₀ q⌋` for `q > 0`. -/
def qLog10floor (q : ℚ) : ℤ :=
  let e0 : ℤ := (digitCount q.num.natAbs : ℤ) - (digitCount q.den : ℤ)
  if qGePow10 q (e0 + 1) then e0 + 1
  else if qGePow10 q e0 then e0
  else e0 - 1

/-- Round `q > 0` to two significant decimal digits, half to even. -/
def roundSig2 (q : ℚ) : ℚ :=
  let e := qLog10floor q
  qMul ((pyRoundHalfEven (qMul q (qPow10 (1 - e))) : ℤ) : ℚ) (qPow10 (e - 1))

/-- Render a nonnegative rational `v` with exactly `dec` digits after the
decimal point (`v * 10 ^ dec` must be an integer), stripping trailing
zeros and a trailing point, as the `g` format does. -/
def renderFixed (v : ℚ) (dec : ℕ) : String :=
  let n := (qMul v (qPow10 dec)).num.natAbs
  if dec = 0 then toString n
  else
    let s := toString n
    let s := if s.length ≤ dec then String.mk (List.replicate (dec + 1 - s.length) '0') ++ s else s
    let ip := s.take (s.length - dec)
    let fp := s.drop (s.length - dec)
    let fp := String.mk ((fp.data.reverse.dropWhile (· = '0')).reverse)
    if fp = "" then ip else ip ++ "." ++ fp

/-- Render `v = m * 10 ^ (e - 1)` (with `m` a two-digit integer) in the
scientific notation used by the `g` format: mantissa with at most one
decimal digit, `e`, a sign, and a two-digit exponent. -/
def renderSci (v : ℚ) (e : ℤ) : String :=
  let m := (qMul v (qPow10 (1 - e))).num.natAbs
  let mant := if m % 10 = 0 then toString (m / 10) else toString (m / 10) ++ "." ++ toString (m % 10)
  let esign := if 0 ≤ e then "+" else "-"
  let eabs := e.natAbs
  let estr := if eabs < 10 then "0" ++ toString eabs else toString eabs
  mant ++ "e" ++ esign ++ estr

/-- Model of Python `format(x, ".2g")` for a positive rational: round to
two significant digits; use fixed notation when the decimal exponent `X`
of the result satisfies `-4 ≤ X < 2` (with `1 - X` fractional digits,
trailing zeros stripped), scientific notation otherwise. -/
def formatDotTwoGPos (q : ℚ) : String :=
  let r := roundSig2 q
  let x := qLog10floor r
  if -4 ≤ x ∧ x < 2 then
    renderFixed r (if 1 ≤ x then 0 else (1 - x).toNat)
  else
    renderSci r x

/-- Model of Python `format(x, ".2g")`. -/
def formatDotTwoG (q : ℚ) : String :=
  if q = 0 then "0"
  else if q < 0 then "-" ++ formatDotTwoGPos (-q)
  else formatDotTwoGPos q

/-! ### Path helpers

`pathlib.Path.resolve()` is modelled for clean, symlink-free paths: an
absolute path resolves to itself, a relative path resolves against the
process working directory `cwd`.  `pathlib.Path.name` is the final path
component. -/

def resolvePath (cwd : String) (p : String) : String :=
  if p.data.head? = some '/' then p else cwd ++ "/" ++ p

def baseName (p : String) : String :=
  String.mk ((p.data.reverse.takeWhile (fun c => c ≠ '/')).reverse)

/-! ### Embedding of `_generate_colabfold_search_args` and
`_generate_colabfold_batch_args` -/

/-- Embedding of `_generate_colabfold_search_args(img, cache_dir,
query_file, output_folder, ncpus)`; returns the argument list and the
container-side search output folder. -/
def generateColabfoldSearchArgs (cwd img cacheDir queryFile outputFolder : String)
    (ncpus : ℕ) : List String × String :=
  let cacheDirSrc := resolvePath cwd cacheDir
  let cacheDirDest := "/tmp/cache"
  let queryFileSrc := resolvePath cwd queryFile
  let queryFileDest := "/input/" ++ baseName queryFileSrc
  let outputFolderSrc := resolvePath cwd outputFolder
  let outputFolderDest := "/output"
  let colabfoldSearchOutputFolder := outputFolderDest ++ "/search"
  ([ "apptainer",
     "run",
     "--bind=" ++ cacheDirSrc ++ ":" ++ cacheDirDest,
     "--bind=" ++ queryFileSrc ++ ":" ++ queryFileDest ++ ":ro",
     "--bind=" ++ outputFolderSrc ++ ":" ++ outputFolderDest,
     img,
     "--env=MMSEQS_IGNORE_INDEX=1",
     "colabfold_search",
     "--threads=" ++ toString ncpus,
     queryFileDest,
     cacheDirDest,
     colabfoldSearchOutputFolder ], colabfoldSearchOutputFolder)

/-- Embedding of `_generate_colabfold_batch_args(img, cache_dir,
input_folder, output_folder)`; returns the argument list and the
container-side predict output folder. -/
def generateColabfoldBatchArgs (cwd img cacheDir inputFolder outputFolder : String) :
    List String × String :=
  let cacheDirSrc := resolvePath cwd cacheDir
  let cacheDirDest := "/tmp/cache"
  let inputFolderSrc := resolvePath cwd inputFolder
  let inputFolderDest := "/input"
  let outputFolderSrc := resolvePath cwd outputFolder
  let outputFolderDest := "/output"
  let colabfoldPredictOutputFolder := outputFolderDest ++ "/predict"
  ([ "apptainer",
     "run",
     "--bind=" ++ cacheDirSrc ++ ":" ++ cacheDirDest,
     "--bind=" ++ inputFolderSrc ++ ":" ++ inputFolderDest,
     "--bind=" ++ outputFolderSrc ++ ":" ++ outputFolderDest,
     img,
     "colabfold_batch",
     inputFolderDest,
     colabfoldPredictOutputFolder ], colabfoldPredictOutputFolder)

/-! ### Embedding of `_generate_sbatch_script` and `_get_account_code` -/

inductive RunError where
  /-- `RuntimeError` from `_get_account_code`: `SLURM_PROJECT_ID` unset. -/
  | missingAccount
  /-- `AssertionError` (or `IndexError`) from the `args[0] == "apptainer"`,
  `args[1] == "run"` precondition in `_generate_sbatch_script`. -/
  | assertionFailed
  /-- `RuntimeError` from `main`: refusing to overwrite a non-empty
  output folder without `--force`. -/
  | nonEmptyOutput
  /-- `FileNotFoundError`: opening a file inside a nonexistent folder. -/
  | fileNotFound
deriving DecidableEq

/-- Embedding of `_get_account_code`: the value of the `SLURM_PROJECT_ID`
environment variable is passed as `env`; absence is a fatal error; the
result is shell-quoted.  (The `functools.cache` decorator makes the
function a run-scoped constant, which a pure function models as-is.) -/
def getAccountCode (env : Option String) : Except RunError String :=
  match env with
  | none => .error .missingAccount
  | some code => .ok (shlexQuote code)

/-- The job-name computation at the top of `_generate_sbatch_script`:
default literal when absent, otherwise the caller's name suffixed with
`_colabfold_search` and shell-quoted. -/
def resolveJobName (jobName : Option String) : String :=
  match jobName with
  | none => "colabfold_search"
  | some j => shlexQuote (j ++ "_colabfold_search")

/-- The comparison used to model Python `sorted` on strings (both orders
are lexicographic by code point). -/
def strLe (a b : String) : Bool := decide (a ≤ b)

/-- The `sbatch_directives` list built by `_generate_sbatch_script`, in
construction order (before sorting).  `partition` is `None`-able as in
the source; a positive `numGpus` overrides it with `accel`. -/
def sbatchDirectives (account : String) (jobName : Option String) (numCpus : ℕ)
    (memoryGbs : ℚ) (maxTime : String) (partition : Option String) (numGpus : ℕ) :
    List String :=
  let jn := resolveJobName jobName
  let memPerCpu := memPerCpuRat memoryGbs numCpus
  let part := if 0 < numGpus then some "accel" else partition
  ([ "#SBATCH --job-name=" ++ jn,
     "#SBATCH --account=" ++ account,
     "#SBATCH --time=" ++ shlexQuote maxTime,
     "#SBATCH --ntasks=1",
     "#SBATCH --mem-per-cpu=" ++ formatDotTwoG memPerCpu ++ "GB",
     "#SBATCH --cpus-per-task=" ++ toString numCpus ]
   ++ (if 0 < numGpus then ["#SBATCH --gpus=" ++ toString numGpus] else [])
   ++ (match part with
       | some p => ["#SBATCH --partition=" ++ shlexQuote p]
       | none => []))

/-- `sorted(sbatch_directives)`. -/
def sortedDirectiveLines (account : String) (jobName : Option String) (numCpus : ℕ)
    (memoryGbs : ℚ) (maxTime : String) (partition : Option String) (numGpus : ℕ) :
    List String :=
  (sbatchDirectives account jobName numCpus memoryGbs maxTime partition numGpus).mergeSort strLe

/-- The fixed header of every generated script. -/
def headerLines : List String :=
  ["#!/usr/bin/env bash", "set -e", "set -u", "set -o pipefail", ""]

/-- The token separator used when joining the command: space, backslash,
newline, four spaces. -/
def sepChars : List Char := [' ', '\\', '\n', ' ', ' ', ' ', ' ']

/-- The command line emitted by `_generate_sbatch_script`: the
`shlex.join`-ed two marker tokens as an unquoted head, each remaining
token `shlex.quote`-d, joined with backslash-newline continuations. -/
def commandLine (args : List String) : String :=
  String.intercalate (String.mk sepChars) (shlexJoin (args.take 2) :: (args.drop 2).map shlexQuote)

/-- The full line list of the generated script: header, sorted
directives, blank line, command line. -/
def scriptLines (account : String) (args : List String) (numCpus : ℕ) (memoryGbs : ℚ)
    (maxTime : String) (partition : Option String) (jobName : Option String)
    (numGpus : ℕ) : List String :=
  headerLines
    ++ sortedDirectiveLines account jobName numCpus memoryGbs maxTime partition numGpus
    ++ ["", commandLine args]

/-- Embedding of `_generate_sbatch_script(args, num_cpus, memory_gbs,
max_time, partition, job_name, num_gpus)`.  The first-two-token
precondition is checked (its violation, an `AssertionError` or
`IndexError`, is `RunError.assertionFailed`); `_get_account_code` is
evaluated while building the directive list, after the assertions. -/
def generateSbatchScript (args : List String) (numCpus : ℕ) (memoryGbs : ℚ)
    (maxTime : String) (partition : Option String) (jobName : Option String)
    (numGpus : ℕ) (env : Option String) : Except RunError String :=
  if args.take 2 = ["apptainer", "run"] then
    match getAccountCode env with
    | .error e => .error e
    | .ok account =>
      .ok (String.intercalate "\n"
        (scriptLines account args numCpus memoryGbs maxTime partition jobName numGpus))
  else .error .assertionFailed

/-! ### Embedding of `main`

The filesystem effects of `main` touch only the output folder, so the
state is the output folder: whether it exists, and an association list
from file name to content.  `Path.open("w")` creates or truncates the
file (before the written expression is evaluated), `f.write` stores the
content, `Path.unlink(missing_ok=True)` removes the entry and never
fails (also when the folder itself is missing), and opening a file in a
nonexistent folder fails. -/

def searchScriptName : String := "run_colabfold_search.sh"

def batchScriptName : String := "run_colabfold_batch.sh"

/-- The CLI arguments of the script, after `argparse` validation
(`ncpus` positive, existing image/query/cache paths). -/
structure CliArgs where
  apptainerImg : String
  queryFile : String
  cacheFolder : String
  outputFolder : String
  force : Bool
  ncpus : ℕ
  jobName : Option String
deriving DecidableEq

/-- The observable state of the output folder. -/
structure FS where
  outDirExists : Bool
  files : List (String × String)
deriving DecidableEq

def lookupFile (files : List (String × String)) (name : String) : Option String :=
  (files.find? (fun p => p.1 == name)).map Prod.snd

def removeFile (files : List (String × String)) (name : String) :
    List (String × String) :=
  files.filter (fun p => p.1 != name)

def setFile (files : List (String × String)) (name content : String) :
    List (String × String) :=
  (name, content) :: removeFile files name

/-- Embedding of `main`: build both argument lists, run the pre-flight
non-empty-folder check, honor `--force` deletions, then write the two
scripts (each file is first created empty by `open("w")` and filled once
the script text has been composed; a failure while composing leaves the
just-opened file empty).  Returns the exit status and the final
filesystem state. -/
def runMain (env : Option String) (cwd : String) (a : CliArgs) (fs : FS) :
    Except RunError ℕ × FS :=
  let searchPair :=
    generateColabfoldSearchArgs cwd a.apptainerImg a.cacheFolder a.queryFile a.outputFolder a.ncpus
  let batchPair :=
    generateColabfoldBatchArgs cwd a.apptainerImg a.cacheFolder searchPair.2 a.outputFolder
  if !a.force && fs.outDirExists && !fs.files.isEmpty then
    (.error .nonEmptyOutput, fs)
  else
    let fs1 : FS :=
      if a.force then
        { fs with files := removeFile (removeFile fs.files searchScriptName) batchScriptName }
      else fs
    if !fs1.outDirExists then (.error .fileNotFound, fs1)
    else
      let fs2 : FS := { fs1 with files := setFile fs1.files searchScriptName "" }
      match generateSbatchScript searchPair.1 a.ncpus 10 "08:00:00" (some "normal")
          a.jobName 0 env with
      | .error e => (.error e, fs2)
      | .ok searchScript =>
        let fs3 : FS := { fs2 with files := setFile fs2.files searchScriptName searchScript }
        let fs4 : FS := { fs3 with files := setFile fs3.files batchScriptName "" }
        match generateSbatchScript batchPair.1 1 8 "04:00:00" (some "normal")
            a.jobName 1 env with
        | .error e => (.error e, fs4)
        | .ok batchScript =>
          (.ok 0, { fs4 with files := setFile fs4.files batchScriptName batchScript })

/-- The characters contributed by the tail of a `String.intercalate`:
separator then element, repeatedly. -/
def tailChars (s : String) : List String → List Char
  | [] => []
  | a :: as => s.data ++ a.data ++ tailChars s as

/-! ## Theorems -/

/-! ### Bridging the executable division to the standard one -/

theorem qDiv_eq (a b : ℚ) : qDiv a b = a / b := by
  rw [qDiv, Rat.divInt_eq_div]
  push_cast
  rw [← div_mul_div_comm, Rat.num_div_den, ← inv_div, Rat.num_div_den, ← div_eq_mul_inv]

/-! ### Facts about the argument-list builders and the script generator -/

theorem searchArgs_take_two (cwd img cache query out : String) (n : ℕ) :
    ((generateColabfoldSearchArgs cwd img cache query out n).1).take 2
      = ["apptainer", "run"] := rfl

theorem batchArgs_take_two (cwd img cache inp out : String) :
    ((generateColabfoldBatchArgs cwd img cache inp out).1).take 2
      = ["apptainer", "run"] := rfl

theorem generateSbatchScript_env_none (args : List String)
    (h : args.take 2 = ["apptainer", "run"]) (n : ℕ) (m : ℚ) (t : String)
    (p j : Option String) (g : ℕ) :
    generateSbatchScript args n m t p j g none = .error .missingAccount := by
  simp [generateSbatchScript, h, getAccountCode]

theorem generateSbatchScript_ok (args : List String)
    (h : args.take 2 = ["apptainer", "run"]) (n : ℕ) (m : ℚ) (t : String)
    (p j : Option String) (g : ℕ) (code : String) :
    generateSbatchScript args n m t p j g (some code)
      = .ok (String.intercalate "\n" (scriptLines (shlexQuote code) args n m t p j g)) := by
  simp [generateSbatchScript, h, getAccountCode]

theorem generateSbatchScript_bad_args (args : List String)
    (h : args.take 2 ≠ ["apptainer", "run"]) (n : ℕ) (m : ℚ) (t : String)
    (p j : Option String) (g : ℕ) (env : Option String) :
    generateSbatchScript args n m t p j g env = .error .assertionFailed := by
  simp [generateSbatchScript, h]

/-! ### Facts about the filesystem model -/

theorem find?_filter_ne (f : List (String × String)) (n m : String) (h : m ≠ n) :
    (f.filter (fun p => p.1 != n)).find? (fun p => p.1 == m)
      = f.find? (fun p => p.1 == m) := by
  induction f with
  | nil => rfl
  | cons p f ih =>
    rcases eq_or_ne p.1 n with hn | hn
    · rw [List.filter_cons_of_neg (by simp [hn]), ih,
        List.find?_cons_of_neg _ (by simp [hn, Ne.symm h])]
    · by_cases hm : p.1 = m
      · rw [List.filter_cons_of_pos (by simp [hn]),
          List.find?_cons_of_pos _ (by simp [hm]), List.find?_cons_of_pos _ (by simp [hm])]
      · rw [List.filter_cons_of_pos (by simp [hn]),
          List.find?_cons_of_neg _ (by simp [hm]), List.find?_cons_of_neg _ (by simp [hm]), ih]

theorem lookupFile_setFile (f : List (String × String)) (n c m : String) :
    lookupFile (setFile f n c) m = if m = n then some c else lookupFile f m := by
  rcases eq_or_ne m n with rfl | h
  · simp [lookupFile, setFile, List.find?]
  · simp only [lookupFile, setFile, removeFile, List.find?, if_neg h]
    have : (n == m) = false := by simp [Ne.symm h]
    rw [this]
    simp only [find?_filter_ne f n m h]

theorem lookupFile_removeFile (f : List (String × String)) (n m : String) :
    lookupFile (removeFile f n) m = if m = n then none else lookupFile f m := by
  rcases eq_or_ne m n with rfl | h
  · simp only [lookupFile, removeFile, if_pos rfl]
    rw [List.find?_eq_none.mpr]
    · rfl
    · intro a ha
      have := (List.mem_filter.mp ha).2
      simpa using this
  · simp only [lookupFile, removeFile, if_neg h, find?_filter_ne f n m h]

/-! ### C4 -/

/-- **C4**: for every positive `cpu_count` and positive
`memory_gigabytes`, the per-cpu memory computed by the directive
generator equals `max(1.0, round(memory / cpu_count, 2))` (`pyRound2`
being the model of Python's two-decimal round-half-even), and in
particular `memory = 10, cpu_count = 4` gives `2.5` while
`memory = 1, cpu_count = 8` gives `1.0`. -/
theorem c4_mem_per_cpu (m : ℚ) (c : ℕ) (hm : 0 < m) (hc : 0 < c) :
    memPerCpuRat m c = max 1 (pyRound2 (m / c))
    ∧ memPerCpuRat 10 4 = 5 / 2
    ∧ memPerCpuRat 1 8 = 1 := by
  refine ⟨?_, ?_, by decide⟩
  · rw [memPerCpuRat, qDiv_eq]
    rcases le_or_lt (pyRound2 (m / c)) 1 with h | h
    · rw [if_neg (not_lt.mpr h), max_eq_left h]
    · rw [if_pos h, max_eq_right h.le]
  · have h : memPerCpuRat 10 4 = Rat.divInt 5 2 := by decide
    rw [h, Rat.divInt_eq_div]; norm_num

/-- Witness for C4 at `memory = 10`, `cpu_count = 4`. -/
theorem c4_witness :
    0 < (10 : ℚ) ∧ 0 < 4
    ∧ (memPerCpuRat 10 4 = max 1 (pyRound2 (10 / (4 : ℕ)))
       ∧ memPerCpuRat 10 4 = 5 / 2 ∧ memPerCpuRat 1 8 = 1) :=
  ⟨by decide, by decide, c4_mem_per_cpu 10 4 (by decide) (by decide)⟩

/-! ### C8 -/

/-- **C8**: with the output folder existing and non-empty and `--force`
not set, `main` aborts with the refusing-to-overwrite error and the
filesystem state is returned unchanged — neither script file is created
or modified (the pre-flight check precedes both writes). -/
theorem c8_nonempty_abort (env : Option String) (cwd : String) (a : CliArgs) (fs : FS)
    (hforce : a.force = false) (hex : fs.outDirExists = true) (hne : fs.files ≠ []) :
    runMain env cwd a fs = (.error .nonEmptyOutput, fs) := by
  have hne' : fs.files.isEmpty = false := by
    simpa [List.isEmpty_iff] using hne
  simp [runMain, hforce, hex, hne']

/-- Witness for C8: a folder holding one unrelated file, no `--force`. -/
theorem c8_witness :
    runMain (some "proj") "/w"
        ⟨"img.sif", "q.fasta", "/cache", "/out", false, 4, none⟩
        ⟨true, [("keep.txt", "data")]⟩
      = (.error .nonEmptyOutput, ⟨true, [("keep.txt", "data")]⟩) :=
  c8_nonempty_abort (some "proj") "/w" _ _ rfl rfl (by decide)

/-! ### C1 -/

/-- **C1, counterexample**: with `SLURM_PROJECT_ID` unset and an empty
existing output folder, the run does fail with the fatal configuration
error, but an *empty* `run_colabfold_search.sh` exists afterwards: in
`main` the file is created by `open("w")` before the script text (whose
composition calls `_get_account_code`) is evaluated.  This contradicts
the claim that the error is raised before any script file is created and
that no empty script file exists after the failure. -/
theorem c1_counterexample :
    runMain none "/w" ⟨"img.sif", "q.fasta", "/cache", "/out", false, 4, none⟩ ⟨true, []⟩
      = (.error .missingAccount, ⟨true, [(searchScriptName, "")]⟩)
    ∧ lookupFile [(searchScriptName, "")] searchScriptName = some "" :=
  ⟨rfl, rfl⟩

/-- **C1, amended**: with `SLURM_PROJECT_ID` unset (and the pre-flight
check passing), the run fails with the fatal configuration error before
any script *content* is written and before the predict script is
created; the search script file, however, has already been created empty
by opening it for writing, so exactly that one empty file is added to
the folder state. -/
theorem c1_env_error_before_content (cwd : String) (a : CliArgs) (fs : FS)
    (hex : fs.outDirExists = true) (hpass : a.force = true ∨ fs.files = []) :
    runMain none cwd a fs =
      (.error .missingAccount,
       { fs with
         files := setFile
           (if a.force then removeFile (removeFile fs.files searchScriptName) batchScriptName
            else fs.files) searchScriptName "" }) := by
  have hguard : (!a.force && fs.outDirExists && !fs.files.isEmpty) = false := by
    rcases hpass with h | h <;> simp [h]
  rw [runMain]
  rw [generateSbatchScript_env_none _
    (searchArgs_take_two cwd a.apptainerImg a.cacheFolder a.queryFile a.outputFolder a.ncpus)]
  simp [hguard, hex, apply_ite FS.outDirExists, apply_ite FS.files]
  intro hf
  rcases hpass with h | h
  · rw [hf] at h; cases h
  · exact h

/-- Witness for the amended C1, with `--force` set over a non-empty folder. -/
theorem c1_witness :
    runMain none "/w" ⟨"img.sif", "q.fasta", "/cache", "/out", true, 4, none⟩
        ⟨true, [("keep.txt", "data")]⟩
      = (.error .missingAccount,
         ⟨true, setFile
           (removeFile (removeFile [("keep.txt", "data")] searchScriptName) batchScriptName)
           searchScriptName ""⟩) :=
  c1_env_error_before_content "/w" _ _ rfl (Or.inl rfl)

/-! ### C2 -/

/-- **C2, counterexample**: the job-name suffix does not identify the
operation being generated.  The *predict* script generated by `main`
(here: the batch argument list, 1 CPU, 1 GPU, the parameters `main`
passes for the predict stage) with caller job name `x` carries the
job-name directive `--job-name=x_colabfold_search` — the fixed literal
`_colabfold_search` is appended by `_generate_sbatch_script`
unconditionally, also for the predict operation. -/
theorem c2_counterexample :
    resolveJobName (some "x") = "x_colabfold_search"
    ∧ "#SBATCH --job-name=x_colabfold_search" ∈
        scriptLines "proj"
          (generateColabfoldBatchArgs "/w" "img.sif" "/cache" "/output/search" "/out").1
          1 8 "04:00:00" (some "normal") (some "x") 1 := by
  refine ⟨rfl, List.mem_append_left _ (List.mem_append_right _ (List.mem_mergeSort.mpr ?_))⟩
  decide

/-- **C2, amended**: when the caller supplies no job name the job-name
directive uses the fixed default literal `colabfold_search`; when the
caller supplies one, the emitted job name is that name suffixed with the
fixed literal `_colabfold_search` — the same literal for both the search
and the predict operation — and shell-quoted; every generated script
contains the corresponding directive line. -/
theorem c2_job_name (j account : String) (jn : Option String) (args : List String)
    (n g : ℕ) (m : ℚ) (t : String) (p : Option String) :
    resolveJobName none = "colabfold_search"
    ∧ resolveJobName (some j) = shlexQuote (j ++ "_colabfold_search")
    ∧ ("#SBATCH --job-name=" ++ resolveJobName jn) ∈ scriptLines account args n m t p jn g := by
  refine ⟨rfl, rfl, List.mem_append_left _ (List.mem_append_right _ (List.mem_mergeSort.mpr ?_))⟩
  simp only [sbatchDirectives]
  exact List.mem_append_left _ (List.mem_cons_self _ _)

/-! ### C3 -/

/-- **C3, counterexample**: at the concrete end-to-end inputs, the
predict stage receives `/output/search` as its (host-side) input folder,
binds it to `/input`, and the script's positional input argument — the
token following the `colabfold_batch` subcommand — is `/input`, not
`/output/search`. -/
theorem c3_counterexample :
    ((generateColabfoldBatchArgs "/w" "img.sif" "/cache" "/output/search" "/out").1).drop 6
      = ["colabfold_batch", "/input", "/output/predict"]
    ∧ ("/input" : String) ≠ "/output/search" :=
  ⟨rfl, by decide⟩

/-- **C3, amended**: for `image=img.sif`, `query=q.fasta`, `cache=/cache`,
`output=/out`, `ncpus=4` (run from working directory `/w` with account
code `proj`): the search command contains the tokens `/input/q.fasta`,
`/tmp/cache` and `/output/search`; its script's directives include
`--cpus-per-task=4` and `--mem-per-cpu=2.5GB`; the search stage returns
`/output/search`, which the predict stage receives and binds to
`/input` (its positional input argument being `/input`); the predict
script's directives include `--gpus=1` and the GPU partition `accel`;
and `main` writes exactly these two generated scripts. -/
theorem c3_end_to_end :
    "/input/q.fasta" ∈ (generateColabfoldSearchArgs "/w" "img.sif" "/cache" "q.fasta" "/out" 4).1
    ∧ "/tmp/cache" ∈ (generateColabfoldSearchArgs "/w" "img.sif" "/cache" "q.fasta" "/out" 4).1
    ∧ "/output/search" ∈ (generateColabfoldSearchArgs "/w" "img.sif" "/cache" "q.fasta" "/out" 4).1
    ∧ "#SBATCH --cpus-per-task=4" ∈ scriptLines "proj"
        (generateColabfoldSearchArgs "/w" "img.sif" "/cache" "q.fasta" "/out" 4).1
        4 10 "08:00:00" (some "normal") none 0
    ∧ "#SBATCH --mem-per-cpu=2.5GB" ∈ scriptLines "proj"
        (generateColabfoldSearchArgs "/w" "img.sif" "/cache" "q.fasta" "/out" 4).1
        4 10 "08:00:00" (some "normal") none 0
    ∧ (generateColabfoldSearchArgs "/w" "img.sif" "/cache" "q.fasta" "/out" 4).2
        = "/output/search"
    ∧ "--bind=/output/search:/input"
        ∈ (generateColabfoldBatchArgs "/w" "img.sif" "/cache" "/output/search" "/out").1
    ∧ ((generateColabfoldBatchArgs "/w" "img.sif" "/cache" "/output/search" "/out").1).drop 7
        = ["/input", "/output/predict"]
    ∧ "#SBATCH --gpus=1" ∈ scriptLines "proj"
        (generateColabfoldBatchArgs "/w" "img.sif" "/cache" "/output/search" "/out").1
        1 8 "04:00:00" (some "normal") none 1
    ∧ "#SBATCH --partition=accel" ∈ scriptLines "proj"
        (generateColabfoldBatchArgs "/w" "img.sif" "/cache" "/output/search" "/out").1
        1 8 "04:00:00" (some "normal") none 1
    ∧ lookupFile (runMain (some "proj") "/w"
          ⟨"img.sif", "q.fasta", "/cache", "/out", false, 4, none⟩ ⟨true, []⟩).2.files
        searchScriptName
        = some (String.intercalate "\n" (scriptLines "proj"
            (generateColabfoldSearchArgs "/w" "img.sif" "/cache" "q.fasta" "/out" 4).1
            4 10 "08:00:00" (some "normal") none 0))
    ∧ lookupFile (runMain (some "proj") "/w"
          ⟨"img.sif", "q.fasta", "/cache", "/out", false, 4, none⟩ ⟨true, []⟩).2.files
        batchScriptName
        = some (String.intercalate "\n" (scriptLines "proj"
            (generateColabfoldBatchArgs "/w" "img.sif" "/cache" "/output/search" "/out").1
            1 8 "04:00:00" (some "normal") none 1)) := by
  refine ⟨by decide, by decide, by decide, ?_, ?_, rfl, by decide, rfl, ?_, ?_, rfl, rfl⟩
  all_goals
    exact List.mem_append_left _ (List.mem_append_right _ (List.mem_mergeSort.mpr (by decide)))

/-! ### C6 -/

/-- **C6**: for every call to the directive generator with
`gpu_count > 0` and any caller-supplied partition, the emitted script
contains the fixed GPU partition directive `--partition=accel` and a
GPU-count directive, and the script is the same whatever partition the
caller supplied (the caller's value never appears). -/
theorem c6_gpu_partition (account : String) (args : List String) (n : ℕ) (m : ℚ)
    (t : String) (p q : Option String) (j : Option String) (g : ℕ) (hg : 0 < g) :
    "#SBATCH --partition=accel" ∈ scriptLines account args n m t p j g
    ∧ ("#SBATCH --gpus=" ++ toString g) ∈ scriptLines account args n m t p j g
    ∧ scriptLines account args n m t p j g = scriptLines account args n m t q j g := by
  have hacc : shlexQuote "accel" = "accel" := rfl
  refine ⟨List.mem_append_left _ (List.mem_append_right _ (List.mem_mergeSort.mpr ?_)),
    List.mem_append_left _ (List.mem_append_right _ (List.mem_mergeSort.mpr ?_)), ?_⟩
  · simp [sbatchDirectives, hg, hacc]
  · simp [sbatchDirectives, hg]
  · simp [scriptLines, sortedDirectiveLines, sbatchDirectives, hg]

/-- Witness for C6 at `gpu_count = 1` with two different caller
partitions. -/
theorem c6_witness :
    "#SBATCH --partition=accel"
      ∈ scriptLines "proj" ["apptainer", "run"] 1 8 "04:00:00" (some "normal") none 1
    ∧ ("#SBATCH --gpus=" ++ toString 1)
      ∈ scriptLines "proj" ["apptainer", "run"] 1 8 "04:00:00" (some "normal") none 1
    ∧ scriptLines "proj" ["apptainer", "run"] 1 8 "04:00:00" (some "normal") none 1
      = scriptLines "proj" ["apptainer", "run"] 1 8 "04:00:00" (some "bigmem") none 1 :=
  c6_gpu_partition "proj" ["apptainer", "run"] 1 8 "04:00:00" (some "normal") (some "bigmem")
    none 1 (by decide)

/-! ### C7 -/

theorem strLe_trans : ∀ a b c : String, strLe a b → strLe b c → strLe a c := by
  intro a b c hab hbc
  simp only [strLe, decide_eq_true_eq] at *
  exact le_trans hab hbc

theorem strLe_total : ∀ a b : String, strLe a b || strLe b a := by
  intro a b
  simp only [strLe, Bool.or_eq_true, decide_eq_true_eq]
  exact le_total a b

theorem sorted_pySort (l : List String) : List.Sorted (· ≤ ·) (l.mergeSort strLe) := by
  have h : (l.mergeSort strLe).Pairwise (fun a b => strLe a b) :=
    List.sorted_mergeSort strLe_trans strLe_total l
  exact h.imp (fun hab => by simpa [strLe, decide_eq_true_eq] using hab)

/-- **C7**: the directive lines of every generated script are in sorted
lexicographic order, and the sort is a function of the directive
*set* — any two construction orders (permutations) of the directive
lines sort to the same list. -/
theorem c7_directives_sorted :
    (∀ account jn numCpus m t p g,
        List.Sorted (· ≤ ·) (sortedDirectiveLines account jn numCpus m t p g))
    ∧ ∀ (l l' : List String), List.Perm l l' → l.mergeSort strLe = l'.mergeSort strLe := by
  constructor
  · intro account jn numCpus m t p g
    exact sorted_pySort _
  · intro l l' hperm
    haveI : IsAntisymm String (· ≤ ·) := ⟨fun _ _ h1 h2 => le_antisymm h1 h2⟩
    exact List.eq_of_perm_of_sorted
      ((List.mergeSort_perm l strLe).trans (hperm.trans (List.mergeSort_perm l' strLe).symm))
      (sorted_pySort l) (sorted_pySort l')

/-- Witness for C7: a concrete directive list is sorted and a concrete
permuted pair sorts identically. -/
theorem c7_witness :
    List.Sorted (· ≤ ·) (sortedDirectiveLines "proj" none 4 10 "08:00:00" (some "normal") 0)
    ∧ ["#SBATCH --b", "#SBATCH --a"].mergeSort strLe
        = ["#SBATCH --a", "#SBATCH --b"].mergeSort strLe :=
  ⟨c7_directives_sorted.1 "proj" none 4 10 "08:00:00" (some "normal") 0,
   c7_directives_sorted.2 _ _ (List.isPerm_iff.mp (by decide))⟩

/-! ### C9 -/

/-- **C9**: every argument list produced by the search builder or the
predict builder begins with the marker tokens `apptainer run`, the
generator never fails with the precondition assertion on those lists,
and on any list whose first two tokens differ from the marker the
generator fails fatally with exactly that assertion error. -/
theorem c9_marker_precondition :
    (∀ cwd img cache query out n,
        ((generateColabfoldSearchArgs cwd img cache query out n).1).take 2
          = ["apptainer", "run"])
    ∧ (∀ cwd img cache inp out,
        ((generateColabfoldBatchArgs cwd img cache inp out).1).take 2
          = ["apptainer", "run"])
    ∧ (∀ cwd img cache query out n numCpus m t p j g env,
        generateSbatchScript ((generateColabfoldSearchArgs cwd img cache query out n).1)
          numCpus m t p j g env ≠ .error .assertionFailed)
    ∧ (∀ cwd img cache inp out numCpus m t p j g env,
        generateSbatchScript ((generateColabfoldBatchArgs cwd img cache inp out).1)
          numCpus m t p j g env ≠ .error .assertionFailed)
    ∧ (∀ (args : List String) numCpus m t p j g env, args.take 2 ≠ ["apptainer", "run"] →
        generateSbatchScript args numCpus m t p j g env = .error .assertionFailed) := by
  refine ⟨fun _ _ _ _ _ _ => rfl, fun _ _ _ _ _ => rfl, ?_, ?_, ?_⟩
  · intro cwd img cache query out n numCpus m t p j g env
    cases env with
    | none => rw [generateSbatchScript_env_none _ (searchArgs_take_two _ _ _ _ _ _)]; simp
    | some c => rw [generateSbatchScript_ok _ (searchArgs_take_two _ _ _ _ _ _)]; simp
  · intro cwd img cache inp out numCpus m t p j g env
    cases env with
    | none => rw [generateSbatchScript_env_none _ (batchArgs_take_two _ _ _ _ _)]; simp
    | some c => rw [generateSbatchScript_ok _ (batchArgs_take_two _ _ _ _ _)]; simp
  · intro args numCpus m t p j g env h
    exact generateSbatchScript_bad_args args h numCpus m t p j g env

/-- Witness for C9: a malformed argument list is rejected fatally. -/
theorem c9_witness :
    (["bad"] : List String).take 2 ≠ ["apptainer", "run"]
    ∧ generateSbatchScript ["bad"] 1 1 "00:01:00" none none 0 (some "proj")
        = .error .assertionFailed :=
  ⟨by decide,
   c9_marker_precondition.2.2.2.2 ["bad"] 1 1 "00:01:00" none none 0 (some "proj") (by decide)⟩

/-! ### C10 -/

/-- **C10**: with `--force` set (and the output folder existing, and the
account code configured), the run succeeds, and every file other than
the two fixed generated-script names is left exactly as it was: the
orchestrator deletes at most `run_colabfold_search.sh` and
`run_colabfold_batch.sh` before regenerating them, and deleting them
when missing is not an error (the success does not depend on whether
they existed). -/
theorem c10_force_frame (env : Option String) (code cwd : String) (a : CliArgs) (fs : FS)
    (hforce : a.force = true) (hex : fs.outDirExists = true) (henv : env = some code) :
    (runMain env cwd a fs).1 = .ok 0
    ∧ ∀ name : String, name ≠ searchScriptName → name ≠ batchScriptName →
        lookupFile (runMain env cwd a fs).2.files name = lookupFile fs.files name := by
  subst henv
  have h1 := generateSbatchScript_ok
      ((generateColabfoldSearchArgs cwd a.apptainerImg a.cacheFolder a.queryFile
        a.outputFolder a.ncpus).1)
      (searchArgs_take_two _ _ _ _ _ _) a.ncpus 10 "08:00:00" (some "normal") a.jobName 0 code
  have h2 := generateSbatchScript_ok
      ((generateColabfoldBatchArgs cwd a.apptainerImg a.cacheFolder
        (generateColabfoldSearchArgs cwd a.apptainerImg a.cacheFolder a.queryFile
          a.outputFolder a.ncpus).2
        a.outputFolder).1)
      (batchArgs_take_two _ _ _ _ _) 1 8 "04:00:00" (some "normal") a.jobName 1 code
  simp only [runMain, h1, h2]
  simp only [hforce, hex]
  constructor
  · simp
  · intro name hn1 hn2
    simp [lookupFile_setFile, lookupFile_removeFile, hn1, hn2]

/-- Witness for C10: a pre-existing unrelated file survives a forced
regeneration, and the run succeeds although neither script pre-existed. -/
theorem c10_witness :
    (runMain (some "proj") "/w" ⟨"img.sif", "q.fasta", "/cache", "/out", true, 4, none⟩
        ⟨true, [("keep.txt", "data")]⟩).1 = .ok 0
    ∧ lookupFile (runMain (some "proj") "/w"
          ⟨"img.sif", "q.fasta", "/cache", "/out", true, 4, none⟩
          ⟨true, [("keep.txt", "data")]⟩).2.files "keep.txt"
        = lookupFile [("keep.txt", "data")] "keep.txt" := by
  have h := c10_force_frame (some "proj") "proj" "/w"
    ⟨"img.sif", "q.fasta", "/cache", "/out", true, 4, none⟩
    ⟨true, [("keep.txt", "data")]⟩ rfl rfl rfl
  exact ⟨h.1, h.2 "keep.txt" (by decide) (by decide)⟩

/-! ### C5: shell-quoting round-trip -/

theorem string_mk_data (s : String) : String.mk s.data = s := by
  cases s; rfl

theorem intercalate_go_data (l : List String) : ∀ (acc s : String),
    (String.intercalate.go acc s l).data = acc.data ++ tailChars s l := by
  induction l with
  | nil => intro acc s; simp [String.intercalate.go, tailChars]
  | cons a as ih =>
    intro acc s
    rw [String.intercalate.go, ih]
    simp [tailChars, List.append_assoc]

theorem intercalate_data (s x : String) (l : List String) :
    (String.intercalate s (x :: l)).data = x.data ++ tailChars s l := by
  rw [String.intercalate]
  exact intercalate_go_data l x s

theorem tailChars_append (s : String) (l1 l2 : List String) :
    tailChars s (l1 ++ l2) = tailChars s l1 ++ tailChars s l2 := by
  induction l1 with
  | nil => simp [tailChars]
  | cons a l1 ih => simp [tailChars, ih, List.append_assoc]

theorem isSafeChar_not_special (c : Char) (h : isSafeChar c = true) :
    ¬(c = ' ' ∨ c = '\t' ∨ c = '\n') ∧ ¬c = '\'' ∧ ¬c = '"' ∧ ¬c = '\\' := by
  refine ⟨?_, ?_, ?_, ?_⟩
  · rintro (rfl | rfl | rfl) <;> exact absurd h (by decide)
  all_goals rintro rfl
  all_goals exact absurd h (by decide)

theorem sqEscChars_quote (t : List Char) :
    sqEscChars ('\'' :: t) = '\'' :: '"' :: '\'' :: '"' :: '\'' :: sqEscChars t := rfl

theorem sqEscChars_other (c : Char) (t : List Char) (h : ¬c = '\'') :
    sqEscChars (c :: t) = c :: sqEscChars t := by
  rw [sqEscChars, if_neg h]

theorem shellSplitAux_norm_end (cur : Option (List Char)) (toks : List (List Char)) :
    shellSplitAux .norm cur toks [] = some (flushTok cur toks) := by
  rw [shellSplitAux.eq_def]

theorem shellSplitAux_norm_quote (cur : Option (List Char)) (toks : List (List Char))
    (cs : List Char) :
    shellSplitAux .norm cur toks ('\'' :: cs)
      = shellSplitAux .squote (some (cur.getD [])) toks cs := by
  rw [shellSplitAux.eq_def]; simp

theorem shellSplitAux_norm_dquote (cur : Option (List Char)) (toks : List (List Char))
    (cs : List Char) :
    shellSplitAux .norm cur toks ('"' :: cs)
      = shellSplitAux .dquote (some (cur.getD [])) toks cs := by
  rw [shellSplitAux.eq_def]; simp

theorem shellSplitAux_norm_space (cur : Option (List Char)) (toks : List (List Char))
    (cs : List Char) :
    shellSplitAux .norm cur toks (' ' :: cs)
      = shellSplitAux .norm none (flushTok cur toks) cs := by
  rw [shellSplitAux.eq_def]; simp

theorem shellSplitAux_norm_cont (cur : Option (List Char)) (toks : List (List Char))
    (cs : List Char) :
    shellSplitAux .norm cur toks ('\\' :: '\n' :: cs)
      = shellSplitAux .norm cur toks cs := by
  rw [shellSplitAux.eq_def]; simp

theorem shellSplitAux_norm_other (c : Char) (h1 : ¬(c = ' ' ∨ c = '\t' ∨ c = '\n'))
    (h2 : ¬c = '\'') (h3 : ¬c = '"') (h4 : ¬c = '\\')
    (cur : Option (List Char)) (toks : List (List Char)) (cs : List Char) :
    shellSplitAux .norm cur toks (c :: cs)
      = shellSplitAux .norm (some (cur.getD [] ++ [c])) toks cs := by
  rw [shellSplitAux.eq_def]; simp [h1, h2, h3, h4]

theorem shellSplitAux_squote_quote (cur : Option (List Char)) (toks : List (List Char))
    (cs : List Char) :
    shellSplitAux .squote cur toks ('\'' :: cs) = shellSplitAux .norm cur toks cs := by
  rw [shellSplitAux.eq_def]; simp

theorem shellSplitAux_squote_other (c : Char) (h : ¬c = '\'')
    (a : List Char) (toks : List (List Char)) (cs : List Char) :
    shellSplitAux .squote (some a) toks (c :: cs)
      = shellSplitAux .squote (some (a ++ [c])) toks cs := by
  rw [shellSplitAux.eq_def]; simp [h]

theorem shellSplitAux_dquote_close (cur : Option (List Char)) (toks : List (List Char))
    (cs : List Char) :
    shellSplitAux .dquote cur toks ('"' :: cs) = shellSplitAux .norm cur toks cs := by
  rw [shellSplitAux.eq_def]; simp

theorem shellSplitAux_dquote_other (c : Char) (h1 : ¬c = '"') (h2 : ¬c = '\\')
    (a : List Char) (toks : List (List Char)) (cs : List Char) :
    shellSplitAux .dquote (some a) toks (c :: cs)
      = shellSplitAux .dquote (some (a ++ [c])) toks cs := by
  rw [shellSplitAux.eq_def]; simp [h1, h2]

theorem shellSplitAux_sqEsc_run (t : List Char) : ∀ (a : List Char)
    (toks : List (List Char)) (rest : List Char),
    shellSplitAux .squote (some a) toks (sqEscChars t ++ '\'' :: rest)
      = shellSplitAux .norm (some (a ++ t)) toks rest := by
  induction t with
  | nil =>
    intro a toks rest
    rw [show sqEscChars [] = [] from rfl, List.nil_append, shellSplitAux_squote_quote]
    simp
  | cons c t ih =>
    intro a toks rest
    by_cases hc : c = '\''
    · subst hc
      rw [sqEscChars_quote]
      simp only [List.cons_append]
      rw [shellSplitAux_squote_quote, shellSplitAux_norm_dquote,
        shellSplitAux_dquote_other '\'' (by decide) (by decide),
        shellSplitAux_dquote_close, shellSplitAux_norm_quote]
      simp only [Option.getD_some]
      rw [ih]
      simp [List.append_assoc]
    · rw [sqEscChars_other c _ hc]
      simp only [List.cons_append]
      rw [shellSplitAux_squote_other c hc, ih]
      simp [List.append_assoc]

theorem shellSplitAux_safe_run (t : List Char) : ∀ (h : ∀ c ∈ t, isSafeChar c = true)
    (hne : t ≠ []) (cur : Option (List Char)) (toks : List (List Char)) (rest : List Char),
    shellSplitAux .norm cur toks (t ++ rest)
      = shellSplitAux .norm (some (cur.getD [] ++ t)) toks rest := by
  induction t with
  | nil => intro _ hne; cases hne rfl
  | cons c t ih =>
    intro h hne cur toks rest
    obtain ⟨h1, h2, h3, h4⟩ := isSafeChar_not_special c (h c (List.mem_cons_self c t))
    rw [List.cons_append, shellSplitAux_norm_other c h1 h2 h3 h4]
    cases t with
    | nil => simp
    | cons d t' =>
      rw [ih (fun x hx => h x (List.mem_cons_of_mem c hx)) (by simp) _ toks rest]
      simp [List.append_assoc]

theorem shellSplitAux_quote_run (t : String) (cur : Option (List Char))
    (toks : List (List Char)) (rest : List Char) :
    shellSplitAux .norm cur toks ((shlexQuote t).data ++ rest)
      = shellSplitAux .norm (some (cur.getD [] ++ t.data)) toks rest := by
  rw [shlexQuote]
  by_cases h0 : t = ""
  · subst h0
    rw [if_pos rfl]
    show shellSplitAux .norm cur toks ('\'' :: '\'' :: rest) = _
    rw [shellSplitAux_norm_quote, shellSplitAux_squote_quote]
    simp
  · rw [if_neg h0]
    by_cases hs : t.data.all isSafeChar
    · rw [if_pos hs]
      have hne : t.data ≠ [] := by
        intro hd
        apply h0
        cases t with
        | mk d => exact congrArg String.mk (by simpa using hd)
      exact shellSplitAux_safe_run t.data (List.all_eq_true.mp hs) hne cur toks rest
    · rw [if_neg hs]
      show shellSplitAux .norm cur toks (('\'' :: (sqEscChars t.data ++ ['\''])) ++ rest) = _
      rw [List.cons_append, shellSplitAux_norm_quote, List.append_assoc,
        List.singleton_append, shellSplitAux_sqEsc_run]

theorem shellSplitAux_sep_run (a : List Char) (toks : List (List Char)) (rest : List Char) :
    shellSplitAux .norm (some a) toks (sepChars ++ rest)
      = shellSplitAux .norm none (toks ++ [a]) rest := by
  show shellSplitAux .norm (some a) toks
      (' ' :: '\\' :: '\n' :: ' ' :: ' ' :: ' ' :: ' ' :: rest) = _
  rw [shellSplitAux_norm_space, shellSplitAux_norm_cont, shellSplitAux_norm_space,
    shellSplitAux_norm_space, shellSplitAux_norm_space, shellSplitAux_norm_space]
  rfl

theorem shellSplitAux_tokens_run (ts : List String) : ∀ (a : List Char)
    (toks : List (List Char)),
    shellSplitAux .norm (some a) toks (tailChars (String.mk sepChars) (ts.map shlexQuote))
      = some (toks ++ a :: ts.map String.data) := by
  induction ts with
  | nil =>
    intro a toks
    rw [show tailChars (String.mk sepChars) (List.map shlexQuote []) = [] from rfl,
      shellSplitAux_norm_end]
    simp [flushTok]
  | cons t ts ih =>
    intro a toks
    simp only [List.map_cons, tailChars]
    rw [List.append_assoc, shellSplitAux_sep_run, shellSplitAux_quote_run]
    simp only [Option.getD_none, List.nil_append]
    rw [ih]
    simp

theorem shellSplitAux_marker_run (rest : List Char) :
    shellSplitAux .norm none [] (("apptainer run").data ++ rest)
      = shellSplitAux .norm (some ("run".data)) [("apptainer".data)] rest := by
  show shellSplitAux .norm none []
      ('a' :: 'p' :: 'p' :: 't' :: 'a' :: 'i' :: 'n' :: 'e' :: 'r' :: ' ' ::
        'r' :: 'u' :: 'n' :: rest) = _
  rw [shellSplitAux_norm_other 'a' (by decide) (by decide) (by decide) (by decide),
    shellSplitAux_norm_other 'p' (by decide) (by decide) (by decide) (by decide),
    shellSplitAux_norm_other 'p' (by decide) (by decide) (by decide) (by decide),
    shellSplitAux_norm_other 't' (by decide) (by decide) (by decide) (by decide),
    shellSplitAux_norm_other 'a' (by decide) (by decide) (by decide) (by decide),
    shellSplitAux_norm_other 'i' (by decide) (by decide) (by decide) (by decide),
    shellSplitAux_norm_other 'n' (by decide) (by decide) (by decide) (by decide),
    shellSplitAux_norm_other 'e' (by decide) (by decide) (by decide) (by decide),
    shellSplitAux_norm_other 'r' (by decide) (by decide) (by decide) (by decide),
    shellSplitAux_norm_space,
    shellSplitAux_norm_other 'r' (by decide) (by decide) (by decide) (by decide),
    shellSplitAux_norm_other 'u' (by decide) (by decide) (by decide) (by decide),
    shellSplitAux_norm_other 'n' (by decide) (by decide) (by decide) (by decide)]
  rfl

theorem shellSplit_commandLine_marker (rest : List String) :
    shellSplit (commandLine ("apptainer" :: "run" :: rest))
      = some ("apptainer" :: "run" :: rest) := by
  have hpre : shlexJoin (("apptainer" :: "run" :: rest).take 2) = "apptainer run" := rfl
  rw [commandLine, hpre, shellSplit]
  rw [show ("apptainer" :: "run" :: rest).drop 2 = rest from rfl]
  rw [intercalate_data, shellSplitAux_marker_run, shellSplitAux_tokens_run]
  simp [string_mk_data, Function.comp]
  rw [show String.mk ∘ String.data = id from funext string_mk_data, List.map_id]

theorem tailChars_quote_split (t : String) (s : String) : ∀ (ts : List String), t ∈ ts →
    ∃ u v, tailChars s (ts.map shlexQuote) = u ++ ((shlexQuote t).data ++ v) := by
  intro ts
  induction ts with
  | nil => intro h; cases h
  | cons x ts ih =>
    intro h
    rcases List.mem_cons.mp h with rfl | hmem
    · exact ⟨s.data, tailChars s (ts.map shlexQuote), by simp [tailChars, List.append_assoc]⟩
    · obtain ⟨u, v, huv⟩ := ih hmem
      refine ⟨s.data ++ (shlexQuote x).data ++ u, v, ?_⟩
      simp [tailChars, huv, List.append_assoc]

theorem intercalate_concat_data (s x c : String) (l : List String) :
    ∃ u, (String.intercalate s (x :: (l ++ [c]))).data = u ++ c.data := by
  refine ⟨x.data ++ (tailChars s l ++ s.data), ?_⟩
  rw [intercalate_data, tailChars_append]
  simp [tailChars, List.append_assoc]

theorem script_cmd_suffix (account : String) (args : List String) (n : ℕ) (m : ℚ)
    (t : String) (p j : Option String) (g : ℕ) :
    ∃ u, (String.intercalate "\n" (scriptLines account args n m t p j g)).data
      = u ++ (commandLine args).data := by
  have hshape : scriptLines account args n m t p j g
      = "#!/usr/bin/env bash" ::
        ((["set -e", "set -u", "set -o pipefail", ""]
          ++ sortedDirectiveLines account j n m t p g ++ [""]) ++ [commandLine args]) := by
    simp [scriptLines, headerLines, List.append_assoc]
  rw [hshape]
  exact intercalate_concat_data _ _ _ _

/-- **C5**: for every argument list accepted by the directive generator
(first two tokens equal to the marker `apptainer run`), every token of
the wrapped command except the two marker tokens appears shell-quoted in
the emitted script text (the script contains `shlexQuote tok` as a
substring, witnessed by an explicit split), and POSIX shell word
splitting of the emitted command line returns exactly the original token
list. -/
theorem c5_quoting_roundtrip (args : List String) (numCpus : ℕ) (m : ℚ) (t : String)
    (p j : Option String) (g : ℕ) (code : String)
    (h : args.take 2 = ["apptainer", "run"]) :
    (∀ tok ∈ args.drop 2, ∃ u v,
        (String.intercalate "\n"
            (scriptLines (shlexQuote code) args numCpus m t p j g)).data
          = u ++ ((shlexQuote tok).data ++ v))
    ∧ generateSbatchScript args numCpus m t p j g (some code)
        = .ok (String.intercalate "\n" (scriptLines (shlexQuote code) args numCpus m t p j g))
    ∧ shellSplit (commandLine args) = some args := by
  have hargs : args = "apptainer" :: "run" :: args.drop 2 := by
    conv_lhs => rw [← List.take_append_drop 2 args, h]
    rfl
  refine ⟨?_, generateSbatchScript_ok args h numCpus m t p j g code, ?_⟩
  · intro tok htok
    obtain ⟨u0, hu0⟩ := script_cmd_suffix (shlexQuote code) args numCpus m t p j g
    have hcmd : (commandLine args).data
        = (shlexJoin (args.take 2)).data
          ++ tailChars (String.mk sepChars) ((args.drop 2).map shlexQuote) := by
      rw [commandLine, intercalate_data]
    obtain ⟨u1, v1, huv⟩ := tailChars_quote_split tok (String.mk sepChars) _ htok
    refine ⟨u0 ++ ((shlexJoin (args.take 2)).data ++ u1), v1, ?_⟩
    rw [hu0, hcmd, huv]
    simp [List.append_assoc]
  · have h2 := shellSplit_commandLine_marker (args.drop 2)
    rwa [← hargs] at h2

/-- Witness for C5 at a concrete argument list with a token needing
quoting. -/
theorem c5_witness :
    (["apptainer", "run", "--bind=/c:/tmp/cache", "a b"] : List String).take 2
      = ["apptainer", "run"]
    ∧ shellSplit (commandLine ["apptainer", "run", "--bind=/c:/tmp/cache", "a b"])
        = some ["apptainer", "run", "--bind=/c:/tmp/cache", "a b"] :=
  ⟨rfl, (c5_quoting_roundtrip ["apptainer", "run", "--bind=/c:/tmp/cache", "a b"]
    1 1 "00:01:00" none none 0 "proj" rfl).2.2⟩

end RunColabfold
